import Mathlib

/-!
# Verification of the flipscout item-pricing pipeline (`src/app.py`)

Shallow embedding of the pricing core of `app.py`:

* Python strings are `List Char`; `str.strip` / `str.startswith` /
  `str.endswith` / slicing are modelled by executable functions below.
* Python `float` values that the program derives from eBay price strings are
  modelled as `ℚ` (the program only adds, compares and averages them);
  `float(s)` on a decimal literal (optional sign, digits, optional fractional
  part, surrounding whitespace) is modelled by `pyFloat`; exponent forms and
  `inf`/`nan` spellings are not needed by any claim and are treated as
  non-numeric.
* JSON dictionaries coming from the eBay API are modelled by structures with
  `Option` fields (a missing key is `none`); Python dict truthiness
  (`if price_info:`) is an explicit `...Truthy` predicate, with an
  `extraKeys` flag standing for unmodelled further keys of the dict.
* The HTTP layer (`requests.get`, the Gemini call, `json.loads`) is an
  external collaborator: it is modelled as an oracle parameter that fixes the
  outcome every concrete request would receive.
-/

/-- Python `str.isspace` on the characters relevant to `str.strip()`. -/
def pyIsSpace (c : Char) : Bool :=
  c = ' ' || c = '\t' || c = '\n' || c = '\r' || c = '\x0b' || c = '\x0c'

/-- Strip leading whitespace, as the left half of Python `str.strip()`. -/
def pyStripLeft : List Char → List Char
  | [] => []
  | c :: rest => if pyIsSpace c then pyStripLeft rest else c :: rest

/-- Strip trailing whitespace, as the right half of Python `str.strip()`. -/
def pyStripRight (s : List Char) : List Char :=
  (pyStripLeft s.reverse).reverse

/-- Python `str.strip()` with no argument: drop whitespace at both ends. -/
def pyStrip (s : List Char) : List Char :=
  pyStripRight (pyStripLeft s)

/-- Python `str.startswith(pre)`. -/
def pyStartswith (pre s : List Char) : Bool :=
  s.take pre.length == pre

/-- Python `str.endswith(suf)`. -/
def pyEndswith (suf s : List Char) : Bool :=
  pyStartswith suf.reverse s.reverse

/-- Numeric value of a decimal digit character. -/
def digitVal (c : Char) : Nat := c.toNat - 48

/-- Value of a digit string, most significant digit first. -/
def digitsVal (cs : List Char) : Nat :=
  cs.foldl (fun a c => a * 10 + digitVal c) 0

/-- Unsigned part of Python `float(s)` on decimal literals:
`digits`, `digits.digits`, `digits.` or `.digits`. -/
def pyFloatMag (cs : List Char) : Option ℚ :=
  let ip := cs.takeWhile Char.isDigit
  let rest := cs.dropWhile Char.isDigit
  match rest with
  | [] => if ip.isEmpty then none else some (digitsVal ip : ℚ)
  | c :: fp =>
    if c == '.' then
      if fp.all Char.isDigit && !(ip.isEmpty && fp.isEmpty) then
        some ((digitsVal ip : ℚ) + (digitsVal fp : ℚ) / ((10 : ℚ) ^ fp.length))
      else none
    else none

/-- Python `float(s)` on a decimal literal (with optional sign and
surrounding whitespace); `none` models the `ValueError` the program
catches.  See the module docstring for the scope of the model. -/
def pyFloat (s : String) : Option ℚ :=
  match pyStrip s.toList with
  | '+' :: rest => pyFloatMag rest
  | '-' :: rest => (pyFloatMag rest).map Neg.neg
  | cs => pyFloatMag cs

/-- The JSON object under an eBay item's `"price"` key
(`item.get("price", {})` in `app.py`).  A missing subkey is `none`;
`extraKeys` records whether the dict holds further, unmodelled keys
(relevant only for Python truthiness). -/
structure PriceJson where
  value : Option String
  currency : Option String
  extraKeys : Bool
deriving DecidableEq

/-- Python truthiness of the price dict (`if price_info:` in `app.py`). -/
def priceTruthy (p : PriceJson) : Bool :=
  p.value.isSome || p.currency.isSome || p.extraKeys

/-- The JSON object under a shipping option's `"shippingCost"` key. -/
structure ShippingCostJson where
  value : Option String
  extraKeys : Bool
deriving DecidableEq

/-- Python truthiness of the shipping-cost dict (`if shipping_cost_info:`). -/
def shippingCostTruthy (s : ShippingCostJson) : Bool :=
  s.value.isSome || s.extraKeys

/-- One entry of an eBay item's `"shippingOptions"` list. -/
structure ShippingOptionJson where
  shippingCost : Option ShippingCostJson
deriving DecidableEq

/-- One raw `itemSummaries` entry of an eBay Browse API response, with the
keys `search_ebay_items` reads. -/
structure RawItem where
  title : Option String
  price : Option PriceJson
  shippingOptions : List ShippingOptionJson
  itemId : Option String
  itemWebUrl : Option String
  condition : Option String
deriving DecidableEq

/-- A normalized listing as built by the loop body of `search_ebay_items`
(`app.py` lines 141–177): the dict appended to `current_items`. -/
structure CurrentItem where
  title : String
  price : ℚ
  price_with_shipping : ℚ
  shipping_cost : ℚ
  currency : String
  itemId : String
  itemWebUrl : String
  condition : String
deriving DecidableEq

/-- Shipping-cost extraction of `search_ebay_items` (`app.py` lines 147–159):
take the first shipping option's cost; a missing or falsy shipping-cost dict,
or a cost value that fails to parse, yields `0`. -/
def extractShipping (item : RawItem) : ℚ :=
  match item.shippingOptions with
  | [] => 0
  | first :: _ =>
    match first.shippingCost with
    | none => 0
    | some sc =>
      if shippingCostTruthy sc then
        match pyFloat (sc.value.getD "0") with
        | some q => q
        | none => 0
      else 0

/-- The per-item normalization of `search_ebay_items` (`app.py` lines
141–177): skip the item when the price dict is missing or falsy, parse
`price_info.get("value", "0")`, skip the item when that parse raises
(`except ValueError: continue`), and otherwise build the `current_items`
entry with `price_with_shipping = price + shipping_cost`. -/
def normalizeItem (item : RawItem) : Option CurrentItem :=
  match item.price with
  | none => none
  | some pd =>
    if priceTruthy pd then
      let shipping := extractShipping item
      match pyFloat (pd.value.getD "0") with
      | none => none
      | some p =>
        some { title := item.title.getD "Unbekannt"
               price := p
               price_with_shipping := p + shipping
               shipping_cost := shipping
               currency := pd.currency.getD "EUR"
               itemId := item.itemId.getD ""
               itemWebUrl := item.itemWebUrl.getD ""
               condition := item.condition.getD "Unbekannt" }
    else none

/-- The full normalization loop over an `itemSummaries` list. -/
def normalizeAll (items : List RawItem) : List CurrentItem :=
  items.filterMap normalizeItem

/-- Outcome of one HTTP request made by `search_ebay_items`: a 200 response
whose parsed `itemSummaries` list is `items`, a non-2xx response, or a raised
`requests` exception. -/
inductive HttpOutcome where
  | ok (items : List RawItem)
  | httpErr
  | raised
deriving DecidableEq

/-- Parameters of one Browse API request: query, `limit`, and whether the
used/very-good/good/acceptable condition filter is attached. -/
structure BrowseRequest where
  q : String
  limit : Nat
  conditionFilter : Bool
deriving DecidableEq

/-- One API call issued by `search_ebay_items`: a Browse search or a
Marketplace Insights request. -/
inductive ApiCall where
  | browse (req : BrowseRequest)
  | insightsQ (q : String)
deriving DecidableEq

/-- The external HTTP collaborator, as an oracle fixing the OAuth outcome and
the outcome every concrete request would receive. -/
structure EbayOracle where
  oauthToken : Option String
  browse : BrowseRequest → HttpOutcome
  insights : String → HttpOutcome

/-- Request of the first, condition-filtered tier (`app.py` lines 116–120). -/
def filteredReq (q : String) (m : Nat) : BrowseRequest :=
  ⟨q, min m 200, true⟩

/-- Request of the second, unfiltered tier at the same cap (lines 130–134). -/
def unfilteredReq (q : String) (m : Nat) : BrowseRequest :=
  ⟨q, min m 200, false⟩

/-- Request of the third, unfiltered reduced-cap tier (line 192). -/
def reducedReq (q : String) : BrowseRequest :=
  ⟨q, 20, false⟩

/-- The `stats` dict returned by `search_ebay_items`; each key that may be
absent is an `Option` field. -/
structure Stats where
  min_current_price : Option ℚ
  median_current_price : Option ℚ
  max_current_price : Option ℚ
  count_current : Option Nat
  min_sold_price : Option ℚ
  median_sold_price : Option ℚ
  count_sold : Option Nat
deriving DecidableEq

/-- The all-absent `stats = {}` dict. -/
def emptyStats : Stats :=
  ⟨none, none, none, none, none, none, none⟩

/-- The dict returned by `search_ebay_items`. -/
structure SearchResult where
  current_items : List CurrentItem
  sold_items : List CurrentItem
  stats : Stats
deriving DecidableEq

/-- `{'current_items': [], 'sold_items': [], 'stats': {}}`, the value
returned on OAuth failure, on a raised request, and when nothing is found. -/
def emptySearchResult : SearchResult :=
  ⟨[], [], emptyStats⟩

/-- Items of a response: the parsed `itemSummaries` of a 200 response,
`[]` otherwise (`data.get("itemSummaries", [])` after a status check). -/
def respItems : HttpOutcome → List RawItem
  | HttpOutcome.ok items => items
  | _ => []

/-- Did the request raise (propagating to the enclosing `except`)? -/
def isRaised : HttpOutcome → Bool
  | HttpOutcome.raised => true
  | _ => false

/-- Was the response a 200 with an empty `itemSummaries` list?  This is the
condition under which `search_ebay_items` retries without the filter. -/
def isOkEmpty : HttpOutcome → Bool
  | HttpOutcome.ok [] => true
  | _ => false

/-- Python `statistics.median` over `ℚ` values: sort ascending, take the
middle element for odd length, the mean of the two middle elements for even
length.  (Unused on `[]`; the program guards every call with non-emptiness.) -/
def pyMedian (l : List ℚ) : ℚ :=
  let s := List.insertionSort (fun a b : ℚ => a ≤ b) l
  let n := s.length
  if n % 2 = 1 then s.getD (n / 2) 0
  else (s.getD (n / 2 - 1) 0 + s.getD (n / 2) 0) / 2

/-- Comparison key of `sorted(current_items, key=lambda x: x["price_with_shipping"])`. -/
def totalLe (a b : CurrentItem) : Prop :=
  a.price_with_shipping ≤ b.price_with_shipping

instance : DecidableRel totalLe := fun a b =>
  inferInstanceAs (Decidable (a.price_with_shipping ≤ b.price_with_shipping))

instance : IsTotal CurrentItem totalLe :=
  ⟨fun a b => le_total a.price_with_shipping b.price_with_shipping⟩

instance : IsTrans CurrentItem totalLe :=
  ⟨fun _ _ _ hab hbc => le_trans hab hbc⟩

/-- Python's stable `sorted` by total price, modelled by the stable
insertion sort. -/
def sortByTotal (l : List CurrentItem) : List CurrentItem :=
  List.insertionSort totalLe l

/-- The statistics block of `search_ebay_items` (`app.py` lines 262–278) for
a non-empty `current_items` list `ci` with sorted form `sorted`:
min/median/max over `price_with_shipping`, count over the list itself.
The sold-price keys are never set: `sold_items` is always `[]` because the
Marketplace Insights response body is never parsed (lines 253–257). -/
def mkStats (ci sorted : List CurrentItem) : Stats :=
  let prices := sorted.map (fun x => x.price_with_shipping)
  { min_current_price := prices.head?
    median_current_price := if prices.isEmpty then none else some (pyMedian prices)
    max_current_price := prices.getLast?
    count_current := some ci.length
    min_sold_price := none
    median_sold_price := none
    count_sold := none }

/-- Tail of `search_ebay_items` after the first two tiers produced the
normalized list `ci` (`app.py` lines 189–296): run the reduced-cap fallback
search when `ci` is empty (its raised exception is swallowed, line 234–235),
issue the Marketplace Insights request whose body is never parsed, then sort
and aggregate. -/
def searchCore (o : EbayOracle) (query : String) (ci : List CurrentItem)
    (calls : List ApiCall) : SearchResult × List ApiCall :=
  let ci2 := if ci.isEmpty then normalizeAll (respItems (o.browse (reducedReq query))) else ci
  let calls2 := (if ci.isEmpty then calls ++ [ApiCall.browse (reducedReq query)] else calls)
      ++ [ApiCall.insightsQ query]
  if ci2.isEmpty then (emptySearchResult, calls2)
  else
    let sorted := sortByTotal ci2
    ({ current_items := sorted, sold_items := [], stats := mkStats ci2 sorted }, calls2)

/-- `search_ebay_items` of `app.py` (lines 93–296), returning the result dict
together with the list of API calls it issued.  OAuth failure returns the
empty dict before any search request; a raised request propagates to the
outer `except` (line 294) which also returns the empty dict; a non-2xx
response leaves `current_items` empty (only an error banner is shown); the
unfiltered same-cap tier runs only after a 200 response with zero items. -/
def search_ebay_items (o : EbayOracle) (query : String) (max_results : Nat) :
    SearchResult × List ApiCall :=
  if o.oauthToken.isNone then (emptySearchResult, [])
  else
    let r1 := o.browse (filteredReq query max_results)
    let calls1 := [ApiCall.browse (filteredReq query max_results)]
    if isRaised r1 then (emptySearchResult, calls1)
    else if isOkEmpty r1 then
      let r2 := o.browse (unfilteredReq query max_results)
      let calls2 := calls1 ++ [ApiCall.browse (unfilteredReq query max_results)]
      if isRaised r2 then (emptySearchResult, calls2)
      else searchCore o query (normalizeAll (respItems r2)) calls2
    else searchCore o query (normalizeAll (respItems r1)) calls1

/-- The status labels of the spec's QueryResult, as derived by the callers of
`search_ebay_items`. -/
inductive QueryStatus where
  | PRICED
  | NO_RESULTS
deriving DecidableEq

/-- Status derivation of the detected-items loop (`app.py` line 763) and the
retry handler (line 932): a result is priced exactly when `current_items` is
non-empty. -/
def statusOf (r : SearchResult) : QueryStatus :=
  if r.current_items.isEmpty then QueryStatus.NO_RESULTS else QueryStatus.PRICED

/-- All four current-price statistics keys are present. -/
def statsCurrentPresent (s : Stats) : Prop :=
  s.min_current_price.isSome = true ∧ s.median_current_price.isSome = true ∧
  s.max_current_price.isSome = true ∧ s.count_current.isSome = true

instance (s : Stats) : Decidable (statsCurrentPresent s) := by
  unfold statsCurrentPresent; infer_instance

/-- One entry of the JSON array returned by the vision collaborator:
an object whose `query_text` key may be absent. -/
structure DetectedItem where
  query_text : Option String
deriving DecidableEq

/-- Result of `json.loads` on the extracted payload, abstracted to what
`analyze_image_with_gemini` inspects: a list (of detected-item objects) or
any non-list JSON value. -/
inductive PyJson where
  | arr (items : List DetectedItem)
  | notArr
deriving DecidableEq

/-- The code-fence stripping of `analyze_image_with_gemini` (`app.py` lines
417–427): strip the response, drop a leading 7-character `js`-fence marker,
then a leading 3-character fence, then a trailing 3-character fence, and
strip again. -/
def extractJsonPayload (s : List Char) : List Char :=
  let t0 := pyStrip s
  let t1 := if pyStartswith "```json".toList t0 then t0.drop 7 else t0
  let t2 := if pyStartswith "```".toList t1 then t1.drop 3 else t1
  let t3 := if pyEndswith "```".toList t2 then t2.take (t2.length - 3) else t2
  pyStrip t3

/-- The response-parsing tail of `analyze_image_with_gemini` (`app.py` lines
416–440), parameterised by the `json.loads` collaborator: strip code fences,
parse, return the items on a JSON array, `[]` on a non-array value, and `[]`
on a `JSONDecodeError`. -/
def parseGeminiJson (loads : List Char → Option PyJson) (responseText : List Char) :
    List DetectedItem :=
  match loads (extractJsonPayload responseText) with
  | some (PyJson.arr items) => items
  | some PyJson.notArr => []
  | none => []

/-- One row of the `results` list built by the detected-items loop
(`app.py` lines 765–798), with the fields the claims depend on:
`Artikel`, `Preis`, `Link` and the `no_results` retry flag. -/
structure ResultRow where
  artikel : String
  preis : ℚ
  link : String
  no_results : Bool
deriving DecidableEq

/-- The detected-items loop (`app.py` lines 749–800), parameterised by the
per-query search collaborator: an item with a missing or empty `query_text`
is skipped with `continue` (no search call, no row); otherwise
`search_ebay_items` is called and a priced row or a `no_results` row is
appended.  Returns the rows together with the queries searched. -/
def processDetected (oracles : String → EbayOracle) :
    List DetectedItem → List ResultRow × List String
  | [] => ([], [])
  | item :: rest =>
    let query := item.query_text.getD ""
    if query = "" then processDetected oracles rest
    else
      let r := (search_ebay_items (oracles query) query 50).1
      let row : ResultRow :=
        if r.current_items.isEmpty then
          { artikel := query, preis := 0, link := "", no_results := true }
        else
          { artikel := query
            preis := r.stats.min_current_price.getD 0
            link := ((r.current_items.head?).map (fun x => x.itemWebUrl)).getD ""
            no_results := false }
      let tail := processDetected oracles rest
      (row :: tail.1, query :: tail.2)

/-- Terminal state of one retry cycle of the per-item retry handler
(`app.py` lines 914–953): success stores the winning query, the min and
median prices and the cheapest link in `retry_status`; otherwise the cycle
ends with `tried: True, success: False`. -/
inductive RetryOutcome where
  | succeeded (query : String) (minPrice medianPrice : ℚ) (link : String)
  | exhausted
deriving DecidableEq

/-- The candidate loop of the per-item retry handler (`app.py` lines
917–953): skip a candidate that is empty or equal to the original failed
query; search the candidate; stop with success on the first candidate whose
search yields items; end exhausted when candidates run out (also when the
resolver offered none, line 951–953).  Returns the outcome together with the
candidate queries actually searched. -/
def tryAlternatives (oracles : String → EbayOracle) (orig : String) :
    List String → RetryOutcome × List String
  | [] => (RetryOutcome.exhausted, [])
  | c :: rest =>
    if c = "" ∨ c = orig then tryAlternatives oracles orig rest
    else
      let r := (search_ebay_items (oracles c) c 50).1
      if r.current_items.isEmpty then
        let tail := tryAlternatives oracles orig rest
        (tail.1, c :: tail.2)
      else
        (RetryOutcome.succeeded c (r.stats.min_current_price.getD 0)
          (r.stats.median_current_price.getD 0)
          (((r.current_items.head?).map (fun x => x.itemWebUrl)).getD ""), [c])

/-! ## Concrete fixtures used by witnesses and counterexamples -/

/-- A raw listing with integer price `10` and no shipping options. -/
def rawTen : RawItem :=
  ⟨some "T", some ⟨some "10", some "EUR", false⟩, [], some "i", some "u", some "Gut"⟩

/-- A raw listing whose price dict is truthy (it has a currency) but carries
no `"value"` key, so the program substitutes the default string `"0"`. -/
def rawNoValue : RawItem :=
  ⟨some "B", some ⟨none, some "EUR", false⟩, [], some "j", some "v", some "Gut"⟩

/-- Oracle: the filtered tier finds `rawTen`, everything else is empty. -/
def oracleOne : EbayOracle :=
  ⟨some "t", fun r => if r.conditionFilter then HttpOutcome.ok [rawTen] else HttpOutcome.ok [],
   fun _ => HttpOutcome.ok []⟩

/-- Oracle: every request succeeds with zero items (empty successful search). -/
def oracleEmptyOk : EbayOracle :=
  ⟨some "t", fun _ => HttpOutcome.ok [], fun _ => HttpOutcome.ok []⟩

/-- Oracle: every request returns a non-2xx response. -/
def oracleHttpFail : EbayOracle :=
  ⟨some "t", fun _ => HttpOutcome.httpErr, fun _ => HttpOutcome.httpErr⟩

/-- Oracle: the OAuth token cannot be obtained. -/
def oracleNoAuth : EbayOracle :=
  ⟨none, fun _ => HttpOutcome.httpErr, fun _ => HttpOutcome.httpErr⟩

/-- Oracle: the filtered tier errors with a non-2xx response while the
reduced-cap tier would find `rawTen`. -/
def oracleT1Err : EbayOracle :=
  ⟨some "t", fun r => if r.limit = 20 then HttpOutcome.ok [rawTen] else HttpOutcome.httpErr,
   fun _ => HttpOutcome.ok []⟩

/-- Oracle: the filtered tier finds only `rawNoValue`, everything else empty. -/
def oracleBadValue : EbayOracle :=
  ⟨some "t", fun r => if r.conditionFilter then HttpOutcome.ok [rawNoValue] else HttpOutcome.ok [],
   fun _ => HttpOutcome.ok []⟩

/-- Per-query search collaborator: the query `"good"` finds `rawTen`, every
other query finds nothing. -/
def oraclesGood : String → EbayOracle :=
  fun s => if s = "good" then oracleOne else oracleEmptyOk

/-- A raw listing whose price value string is not numeric. -/
def rawBadPrice : RawItem :=
  ⟨some "C", some ⟨some "abc", some "EUR", false⟩, [], some "k", some "w", some "Gut"⟩

/-- A concrete `json.loads` collaborator that recognises exactly the payload
`[]` as the empty JSON array. -/
def loadsEx : List Char → Option PyJson :=
  fun s => if s = "[]".toList then some (PyJson.arr []) else none

/-! ## Lemmas about the Python string model -/

lemma pyStripLeft_cons_nonspace {c : Char} {t : List Char} (hc : pyIsSpace c = false) :
    pyStripLeft (c :: t) = c :: t := by
  simp [pyStripLeft, hc]

lemma pyStripLeft_eq_cons {l t : List Char} {c : Char} (h : pyStripLeft l = c :: t) :
    pyIsSpace c = false := by
  induction l with
  | nil => simp [pyStripLeft] at h
  | cons a l ih =>
    by_cases ha : pyIsSpace a
    · exact ih (by simpa [pyStripLeft, ha] using h)
    · simp [pyStripLeft, ha] at h
      simp [← h.1, ha]

lemma pyStripLeft_idem (l : List Char) :
    pyStripLeft (pyStripLeft l) = pyStripLeft l := by
  induction l with
  | nil => rfl
  | cons c t ih =>
    by_cases hc : pyIsSpace c
    · simpa [pyStripLeft, hc] using ih
    · simp [pyStripLeft, hc]

lemma pyStripLeft_append_nonnil {a : List Char} (h : pyStripLeft a ≠ []) (b : List Char) :
    pyStripLeft (a ++ b) = pyStripLeft a ++ b := by
  induction a with
  | nil => simp [pyStripLeft] at h
  | cons c t ih =>
    by_cases hc : pyIsSpace c
    · simp only [pyStripLeft, hc] at h ⊢
      simpa [hc] using ih h
    · simp [pyStripLeft, hc]

lemma pyStripLeft_append_singleton {c : Char} (hc : pyIsSpace c = false) (a : List Char) :
    pyStripLeft (a ++ [c]) = pyStripLeft a ++ [c] := by
  induction a with
  | nil => simp [pyStripLeft, hc]
  | cons d t ih =>
    by_cases hd : pyIsSpace d
    · simpa [pyStripLeft, hd] using ih
    · simp [pyStripLeft, hd]

lemma pyStripRight_cons {c : Char} (hc : pyIsSpace c = false) (t : List Char) :
    pyStripRight (c :: t) = c :: pyStripRight t := by
  unfold pyStripRight
  rw [show (c :: t).reverse = t.reverse ++ [c] by simp,
    pyStripLeft_append_singleton hc]
  simp

lemma pyStripRight_idem (x : List Char) :
    pyStripRight (pyStripRight x) = pyStripRight x := by
  unfold pyStripRight
  rw [List.reverse_reverse, pyStripLeft_idem]

lemma pyStripLeft_pyStripRight {x : List Char} (h : pyStripLeft x = x) :
    pyStripLeft (pyStripRight x) = pyStripRight x := by
  cases x with
  | nil => rfl
  | cons c t =>
    have hc : pyIsSpace c = false := pyStripLeft_eq_cons h
    rw [pyStripRight_cons hc, pyStripLeft_cons_nonspace hc]

lemma pyStrip_idem (s : List Char) : pyStrip (pyStrip s) = pyStrip s := by
  unfold pyStrip
  rw [pyStripLeft_pyStripRight (pyStripLeft_idem s), pyStripRight_idem]

lemma extractJsonPayload_fenced (inner : List Char)
    (h1 : pyStartswith "```".toList (inner ++ "```".toList) = false) :
    extractJsonPayload ("```json".toList ++ inner ++ "```".toList) = pyStrip inner := by
  have hL : pyStripLeft ("```json".toList ++ (inner ++ "```".toList)) =
      "```json".toList ++ (inner ++ "```".toList) := by
    rw [pyStripLeft_append_nonnil (show pyStripLeft "```json".toList ≠ [] from by decide),
      show pyStripLeft "```json".toList = "```json".toList from by decide]
  have hR : pyStripRight ("```json".toList ++ (inner ++ "```".toList)) =
      "```json".toList ++ (inner ++ "```".toList) := by
    unfold pyStripRight
    rw [show ("```json".toList ++ (inner ++ "```".toList)).reverse =
        ("```".toList).reverse ++ (inner.reverse ++ ("```json".toList).reverse) by simp,
      pyStripLeft_append_nonnil (show pyStripLeft ("```".toList).reverse ≠ [] from by decide),
      show pyStripLeft ("```".toList).reverse = ("```".toList).reverse from by decide]
    simp
  have hsw : pyStrip ("```json".toList ++ (inner ++ "```".toList)) =
      "```json".toList ++ (inner ++ "```".toList) := by
    unfold pyStrip
    rw [hL, hR]
  have hstart1 : pyStartswith "```json".toList
      ("```json".toList ++ (inner ++ "```".toList)) = true := by
    simp [pyStartswith, List.take_left]
  have hdrop : ("```json".toList ++ (inner ++ "```".toList)).drop 7 =
      inner ++ "```".toList := by
    rw [show (7 : Nat) = ("```json".toList).length from by decide, List.drop_left]
  have hend : pyEndswith "```".toList (inner ++ "```".toList) = true := by
    simp [pyEndswith, pyStartswith, List.reverse_append, List.take_left]
  have hlen : (inner ++ "```".toList).length - 3 = inner.length := by
    simp [List.length_append]
  have htake : (inner ++ "```".toList).take ((inner ++ "```".toList).length - 3) =
      inner := by
    rw [hlen, List.take_left]
  rw [List.append_assoc]
  simp only [extractJsonPayload, hsw, hstart1, hdrop, h1, hend, htake,
    eq_self_iff_true, if_true, Bool.false_eq_true, if_false]

lemma extractJsonPayload_nofence (inner : List Char)
    (h2 : pyStartswith "```json".toList (pyStrip inner) = false)
    (h3 : pyStartswith "```".toList (pyStrip inner) = false)
    (h4 : pyEndswith "```".toList (pyStrip inner) = false) :
    extractJsonPayload inner = pyStrip inner := by
  simp only [extractJsonPayload, h2, h3, h4, Bool.false_eq_true, if_false, pyStrip_idem]

/-- C9: a vision-collaborator payload wrapped in a ```json code fence parses
identically to the unwrapped payload (the fence is stripped before parsing),
and a payload that `json.loads` rejects, or that parses to a non-array JSON
value, yields the empty detected-item sequence rather than an error. -/
theorem C9_fence_stripping_parse_failures :
    (∀ (loads : List Char → Option PyJson) (inner : List Char),
      pyStartswith "```".toList (inner ++ "```".toList) = false →
      pyStartswith "```json".toList (pyStrip inner) = false →
      pyStartswith "```".toList (pyStrip inner) = false →
      pyEndswith "```".toList (pyStrip inner) = false →
      parseGeminiJson loads ("```json".toList ++ inner ++ "```".toList) =
        parseGeminiJson loads inner) ∧
    (∀ (loads : List Char → Option PyJson) (t : List Char),
      loads (extractJsonPayload t) = none → parseGeminiJson loads t = []) ∧
    (∀ (loads : List Char → Option PyJson) (t : List Char),
      loads (extractJsonPayload t) = some PyJson.notArr → parseGeminiJson loads t = []) := by
  refine ⟨?_, ?_, ?_⟩
  · intro loads inner h1 h2 h3 h4
    rw [parseGeminiJson, parseGeminiJson, extractJsonPayload_fenced inner h1,
      extractJsonPayload_nofence inner h2 h3 h4]
  · intro loads t h
    simp [parseGeminiJson, h]
  · intro loads t h
    simp [parseGeminiJson, h]

/-- Witness for C9 at the concrete fenced payload `[]` and the collaborator
`loadsEx`. -/
theorem C9_fence_stripping_parse_failures_witness :
    (pyStartswith "```".toList ("\n[]\n".toList ++ "```".toList) = false ∧
      pyStartswith "```json".toList (pyStrip "\n[]\n".toList) = false ∧
      pyStartswith "```".toList (pyStrip "\n[]\n".toList) = false ∧
      pyEndswith "```".toList (pyStrip "\n[]\n".toList) = false) ∧
    parseGeminiJson loadsEx ("```json".toList ++ "\n[]\n".toList ++ "```".toList) =
      parseGeminiJson loadsEx "\n[]\n".toList :=
  ⟨⟨by decide, by decide, by decide, by decide⟩,
    C9_fence_stripping_parse_failures.1 loadsEx "\n[]\n".toList
      (by decide) (by decide) (by decide) (by decide)⟩

/-! ## Lemmas about sorting and the median -/

lemma sorted_head_le_mem {l : List ℚ} (h : l.Sorted (· ≤ ·)) (hne : l ≠ []) :
    ∀ x ∈ l, l.head hne ≤ x := by
  cases l with
  | nil => exact absurd rfl hne
  | cons a t =>
    intro x hx
    rcases List.mem_cons.mp hx with hxa | hxt
    · simp [hxa]
    · exact List.rel_of_sorted_cons h x hxt

lemma sorted_mem_le_getLast {l : List ℚ} (h : l.Sorted (· ≤ ·)) (hne : l ≠ []) :
    ∀ x ∈ l, x ≤ l.getLast hne := by
  induction l with
  | nil => exact absurd rfl hne
  | cons a t ih =>
    intro x hx
    cases t with
    | nil =>
      simp only [List.mem_singleton] at hx
      simp [hx, List.getLast]
    | cons b t2 =>
      rw [List.getLast_cons (List.cons_ne_nil b t2)]
      rcases List.mem_cons.mp hx with hxa | hxt
      · subst hxa
        exact List.rel_of_sorted_cons h _ (List.getLast_mem (List.cons_ne_nil b t2))
      · exact ih h.of_cons (List.cons_ne_nil b t2) x hxt

lemma insortQ_eq_self {l : List ℚ} (h : l.Sorted (· ≤ ·)) :
    List.insertionSort (fun a b : ℚ => a ≤ b) l = l :=
  List.eq_of_perm_of_sorted (List.perm_insertionSort _ l) (List.sorted_insertionSort _ l) h

lemma pyMedian_bounds {l : List ℚ} (h : l.Sorted (· ≤ ·)) (hne : l ≠ []) :
    l.head hne ≤ pyMedian l ∧ pyMedian l ≤ l.getLast hne := by
  have hn : 0 < l.length := List.length_pos.mpr hne
  have hi2 : l.length / 2 < l.length := Nat.div_lt_self hn one_lt_two
  have hi1 : l.length / 2 - 1 < l.length := lt_of_le_of_lt (Nat.sub_le _ _) hi2
  simp only [pyMedian, insortQ_eq_self h]
  by_cases hodd : l.length % 2 = 1
  · simp only [hodd, if_true, List.getD_eq_get _ _ hi2]
    exact ⟨sorted_head_le_mem h hne _ (List.get_mem l _ hi2),
      sorted_mem_le_getLast h hne _ (List.get_mem l _ hi2)⟩
  · simp only [hodd, if_false, List.getD_eq_get _ _ hi1, List.getD_eq_get _ _ hi2]
    have hb1l := sorted_head_le_mem h hne _ (List.get_mem l _ hi1)
    have hb2l := sorted_head_le_mem h hne _ (List.get_mem l _ hi2)
    have hb1r := sorted_mem_le_getLast h hne _ (List.get_mem l _ hi1)
    have hb2r := sorted_mem_le_getLast h hne _ (List.get_mem l _ hi2)
    constructor <;> linarith

lemma sorted_sortByTotal (l : List CurrentItem) : (sortByTotal l).Sorted totalLe :=
  List.sorted_insertionSort totalLe l

lemma prices_sorted (l : List CurrentItem) :
    ((sortByTotal l).map fun x => x.price_with_shipping).Sorted (· ≤ ·) := by
  have h := sorted_sortByTotal l
  simpa [List.Sorted, List.pairwise_map, totalLe] using h

lemma sortByTotal_ne_nil {l : List CurrentItem} (h : l ≠ []) : sortByTotal l ≠ [] := by
  intro hs
  have hp := List.perm_insertionSort totalLe l
  rw [show List.insertionSort totalLe l = sortByTotal l from rfl, hs] at hp
  exact h hp.symm.eq_nil

lemma sortByTotal_length (l : List CurrentItem) : (sortByTotal l).length = l.length :=
  (List.perm_insertionSort totalLe l).length_eq

/-! ## Shape of `search_ebay_items` results -/

lemma searchCore_shape (o : EbayOracle) (q : String) (ci : List CurrentItem)
    (calls : List ApiCall) :
    (searchCore o q ci calls).1 = emptySearchResult ∨
    ∃ ci2, ci2 ≠ [] ∧ (searchCore o q ci calls).1 =
      ⟨sortByTotal ci2, [], mkStats ci2 (sortByTotal ci2)⟩ := by
  simp only [searchCore]
  split
  · split
    · exact Or.inl rfl
    · next hne =>
      exact Or.inr ⟨_, fun hnil => hne (by simp [hnil]), rfl⟩
  · next hne =>
    exact Or.inr ⟨_, fun hnil => hne (by simp [hnil]), rfl⟩

lemma search_shape (o : EbayOracle) (q : String) (m : Nat) :
    (search_ebay_items o q m).1 = emptySearchResult ∨
    ∃ ci2, ci2 ≠ [] ∧ (search_ebay_items o q m).1 =
      ⟨sortByTotal ci2, [], mkStats ci2 (sortByTotal ci2)⟩ := by
  simp only [search_ebay_items]
  split
  · exact Or.inl rfl
  · split
    · exact Or.inl rfl
    · split
      · split
        · exact Or.inl rfl
        · exact searchCore_shape ..
      · exact searchCore_shape ..

lemma insights_mem_searchCore (o : EbayOracle) (q : String) (ci : List CurrentItem)
    (calls : List ApiCall) :
    ApiCall.insightsQ q ∈ (searchCore o q ci calls).2 := by
  simp only [searchCore]
  split
  · split <;> simp
  · simp

lemma mkStats_min (ci sorted : List CurrentItem) :
    (mkStats ci sorted).min_current_price =
      (sorted.map fun x => x.price_with_shipping).head? := rfl

lemma mkStats_median (ci sorted : List CurrentItem) :
    (mkStats ci sorted).median_current_price =
      if (sorted.map fun x => x.price_with_shipping).isEmpty then none
      else some (pyMedian (sorted.map fun x => x.price_with_shipping)) := rfl

lemma mkStats_max (ci sorted : List CurrentItem) :
    (mkStats ci sorted).max_current_price =
      (sorted.map fun x => x.price_with_shipping).getLast? := rfl

lemma mkStats_count (ci sorted : List CurrentItem) :
    (mkStats ci sorted).count_current = some ci.length := rfl

lemma priced_stats_facts (ci2 : List CurrentItem) (hne : ci2 ≠ []) :
    ∃ mn md mx,
      (mkStats ci2 (sortByTotal ci2)).min_current_price = some mn ∧
      (mkStats ci2 (sortByTotal ci2)).median_current_price = some md ∧
      (mkStats ci2 (sortByTotal ci2)).max_current_price = some mx ∧
      mn ≤ md ∧ md ≤ mx ∧
      (mkStats ci2 (sortByTotal ci2)).count_current = some (sortByTotal ci2).length ∧
      md = pyMedian ((sortByTotal ci2).map fun x => x.price_with_shipping) := by
  have hsne : sortByTotal ci2 ≠ [] := sortByTotal_ne_nil hne
  have hpne : ((sortByTotal ci2).map fun x => x.price_with_shipping) ≠ [] := by
    simpa using hsne
  have hie : ((sortByTotal ci2).map fun x => x.price_with_shipping).isEmpty = false := by
    cases he : ((sortByTotal ci2).map fun x => x.price_with_shipping).isEmpty
    · rfl
    · exact absurd (List.isEmpty_iff.mp he) hpne
  have hmed := pyMedian_bounds (prices_sorted ci2) hpne
  refine ⟨((sortByTotal ci2).map fun x => x.price_with_shipping).head hpne,
    pyMedian ((sortByTotal ci2).map fun x => x.price_with_shipping),
    ((sortByTotal ci2).map fun x => x.price_with_shipping).getLast hpne,
    ?_, ?_, ?_, ?_, ?_, ?_, ?_⟩
  · rw [mkStats_min, List.head?_eq_head hpne]
  · rw [mkStats_median, hie]
    rfl
  · rw [mkStats_max, List.getLast?_eq_getLast _ hpne]
  · exact hmed.1
  · exact hmed.2
  · rw [mkStats_count, sortByTotal_length]
  · rfl

/-- C6: for a non-empty listing set the statistics exist and satisfy
min ≤ median ≤ max with count the listing count, the median being the
standard statistical median of the `price_with_shipping` (total price)
values; for an empty listing set the stats dict stays empty. -/
theorem C6_statistics_bounds (o : EbayOracle) (q : String) (m : Nat) :
    ((search_ebay_items o q m).1.current_items ≠ [] →
      ∃ mn md mx,
        (search_ebay_items o q m).1.stats.min_current_price = some mn ∧
        (search_ebay_items o q m).1.stats.median_current_price = some md ∧
        (search_ebay_items o q m).1.stats.max_current_price = some mx ∧
        mn ≤ md ∧ md ≤ mx ∧
        (search_ebay_items o q m).1.stats.count_current =
          some (search_ebay_items o q m).1.current_items.length ∧
        md = pyMedian ((search_ebay_items o q m).1.current_items.map
          (fun x => x.price_with_shipping))) ∧
    ((search_ebay_items o q m).1.current_items = [] →
      (search_ebay_items o q m).1.stats = emptyStats) := by
  rcases search_shape o q m with h | ⟨ci2, hne, h⟩
  · simp only [h, emptySearchResult]
    exact ⟨fun hc => absurd rfl hc, fun _ => trivial⟩
  · have hsne : sortByTotal ci2 ≠ [] := sortByTotal_ne_nil hne
    simp only [h]
    exact ⟨fun _ => priced_stats_facts ci2 hne, fun hc => absurd hc hsne⟩

/-- C8: every result of `search_ebay_items` keeps its listing sequence
sorted ascending by total price, is priced exactly when that sequence is
non-empty, and carries the current-price statistics exactly when it is
priced. -/
theorem C8_result_invariant (o : EbayOracle) (q : String) (m : Nat) :
    (search_ebay_items o q m).1.current_items.Sorted totalLe ∧
    (statusOf (search_ebay_items o q m).1 = QueryStatus.PRICED ↔
      (search_ebay_items o q m).1.current_items ≠ []) ∧
    (statsCurrentPresent (search_ebay_items o q m).1.stats ↔
      (search_ebay_items o q m).1.current_items ≠ []) := by
  rcases search_shape o q m with h | ⟨ci2, hne, h⟩
  · rw [h]
    refine ⟨List.sorted_nil, ?_, ?_⟩
    · simp [statusOf, emptySearchResult]
    · simp [statsCurrentPresent, emptySearchResult, emptyStats]
  · rw [h]
    have hsne : sortByTotal ci2 ≠ [] := sortByTotal_ne_nil hne
    have hpne : ((sortByTotal ci2).map fun x => x.price_with_shipping) ≠ [] := by
      simpa using hsne
    refine ⟨sorted_sortByTotal ci2, ?_, ?_⟩
    · simp [statusOf, List.isEmpty_iff, hsne]
    · simp [statsCurrentPresent, mkStats, List.head?_eq_head hpne,
        List.getLast?_eq_getLast _ hpne, List.isEmpty_iff, hpne, hsne]

/-- C10: the returned `sold_items` list is always empty and the sold-price
statistics keys are never present, while the Marketplace Insights request is
still issued whenever control reaches it (no request raised before it). -/
theorem C10_sold_items_never_populated (o : EbayOracle) (q : String) (m : Nat) :
    (search_ebay_items o q m).1.sold_items = [] ∧
    (search_ebay_items o q m).1.stats.min_sold_price = none ∧
    (search_ebay_items o q m).1.stats.median_sold_price = none ∧
    (search_ebay_items o q m).1.stats.count_sold = none ∧
    (o.oauthToken.isSome = true →
      isRaised (o.browse (filteredReq q m)) = false →
      (isOkEmpty (o.browse (filteredReq q m)) = true →
        isRaised (o.browse (unfilteredReq q m)) = false) →
      ApiCall.insightsQ q ∈ (search_ebay_items o q m).2) := by
  refine ⟨?_, ?_, ?_, ?_, ?_⟩
  · rcases search_shape o q m with h | ⟨ci2, _, h⟩ <;> rw [h] <;> rfl
  · rcases search_shape o q m with h | ⟨ci2, _, h⟩ <;> rw [h] <;> rfl
  · rcases search_shape o q m with h | ⟨ci2, _, h⟩ <;> rw [h] <;> rfl
  · rcases search_shape o q m with h | ⟨ci2, _, h⟩ <;> rw [h] <;> rfl
  · intro h1 h2 h3
    have hnone : o.oauthToken.isNone = false := by
      cases htok : o.oauthToken
      · rw [htok] at h1; simp at h1
      · rfl
    unfold search_ebay_items
    simp only [hnone, Bool.false_eq_true, if_false, h2]
    split
    · next hoe =>
      simp only [h3 hoe]
      exact insights_mem_searchCore ..
    · exact insights_mem_searchCore ..

lemma pyFloat_zero : pyFloat "0" = some 0 := by decide

lemma respItems_ok (items : List RawItem) : respItems (HttpOutcome.ok items) = items := rfl

lemma respItems_httpErr : respItems HttpOutcome.httpErr = [] := rfl

lemma normalizeAll_nil : normalizeAll [] = [] := rfl

/-- C1 counterexample: an OAuth failure, and a non-2xx response at every
issued tier, each return exactly the same result value as a successful
search in which every tier returns 200 with zero items — no SEARCH_FAILED
outcome distinguishable from NO_RESULTS exists. -/
theorem C1_counterexample :
    oracleNoAuth.oauthToken = none ∧
    oracleHttpFail.browse (filteredReq "q" 50) = HttpOutcome.httpErr ∧
    oracleHttpFail.browse (reducedReq "q") = HttpOutcome.httpErr ∧
    oracleEmptyOk.browse (filteredReq "q" 50) = HttpOutcome.ok [] ∧
    oracleEmptyOk.browse (unfilteredReq "q" 50) = HttpOutcome.ok [] ∧
    oracleEmptyOk.browse (reducedReq "q") = HttpOutcome.ok [] ∧
    (search_ebay_items oracleHttpFail "q" 50).1 = (search_ebay_items oracleEmptyOk "q" 50).1 ∧
    (search_ebay_items oracleNoAuth "q" 50).1 = (search_ebay_items oracleEmptyOk "q" 50).1 := by
  refine ⟨rfl, rfl, rfl, rfl, rfl, rfl, rfl, rfl⟩

/-- C1 (amended): every failure mode of `search_ebay_items` — OAuth token
unobtainable, a raised request, or a non-2xx response at the tiers it
reaches — returns the very `emptySearchResult` value that an empty
successful search also returns; failure is not distinguishable from an
empty success in the result value. -/
theorem C1_failure_collapses_to_empty (o : EbayOracle) (q : String) (m : Nat) :
    (o.oauthToken = none → (search_ebay_items o q m).1 = emptySearchResult) ∧
    (o.browse (filteredReq q m) = HttpOutcome.raised →
      (search_ebay_items o q m).1 = emptySearchResult) ∧
    (o.browse (filteredReq q m) = HttpOutcome.httpErr →
      normalizeAll (respItems (o.browse (reducedReq q))) = [] →
      (search_ebay_items o q m).1 = emptySearchResult) ∧
    (o.browse (filteredReq q m) = HttpOutcome.ok [] →
      o.browse (unfilteredReq q m) = HttpOutcome.ok [] →
      o.browse (reducedReq q) = HttpOutcome.ok [] →
      (search_ebay_items o q m).1 = emptySearchResult) := by
  refine ⟨?_, ?_, ?_, ?_⟩
  · intro h
    simp [search_ebay_items, h]
  · intro h
    by_cases htok : o.oauthToken.isNone <;>
      simp [search_ebay_items, htok, h, isRaised]
  · intro h1 h2
    by_cases htok : o.oauthToken.isNone <;>
      simp [search_ebay_items, htok, h1, isRaised, isOkEmpty, searchCore,
        respItems_httpErr, normalizeAll_nil, h2]
  · intro h1 h2 h3
    by_cases htok : o.oauthToken.isNone <;>
      simp [search_ebay_items, htok, h1, h2, h3, isRaised, isOkEmpty, searchCore,
        respItems_ok, normalizeAll_nil]

/-- Witness for C1 at the all-non-2xx oracle. -/
theorem C1_failure_collapses_to_empty_witness :
    (oracleHttpFail.browse (filteredReq "q" 50) = HttpOutcome.httpErr ∧
      normalizeAll (respItems (oracleHttpFail.browse (reducedReq "q"))) = []) ∧
    (search_ebay_items oracleHttpFail "q" 50).1 = emptySearchResult :=
  ⟨⟨by decide, by decide⟩,
    (C1_failure_collapses_to_empty oracleHttpFail "q" 50).2.2.1 (by decide) (by decide)⟩

/-- C2 counterexample: a raw listing whose price dict is truthy but carries
no `"value"` entry (the base price is absent) is NOT rejected: the default
string `"0"` is parsed and the listing is retained with a substituted base
price of `0`, and it enters the search result set. -/
theorem C2_counterexample :
    rawNoValue.price = some ⟨none, some "EUR", false⟩ ∧
    (normalizeItem rawNoValue).isSome = true ∧
    (normalizeItem rawNoValue).map (fun c => c.price) = some 0 ∧
    (search_ebay_items oracleBadValue "q" 50).1.current_items.length = 1 := by
  refine ⟨rfl, rfl, by decide, by decide⟩

/-- C2 (amended): normalization rejects a listing whose price dict is
missing or falsy and a listing whose price value string fails to parse; but
a listing whose price dict is truthy with an absent `"value"` entry is
retained with a substituted base price of `0`. -/
theorem C2_price_validation (item : RawItem) :
    (item.price = none → normalizeItem item = none) ∧
    (∀ pd, item.price = some pd → priceTruthy pd = false → normalizeItem item = none) ∧
    (∀ pd v, item.price = some pd → priceTruthy pd = true → pd.value = some v →
      pyFloat v = none → normalizeItem item = none) ∧
    (∀ pd, item.price = some pd → priceTruthy pd = true → pd.value = none →
      ∃ ci, normalizeItem item = some ci ∧ ci.price = 0) := by
  refine ⟨?_, ?_, ?_, ?_⟩
  · intro h
    simp [normalizeItem, h]
  · intro pd h ht
    simp [normalizeItem, h, ht]
  · intro pd v h ht hv hp
    simp [normalizeItem, h, ht, hv, hp]
  · intro pd h ht hv
    simp only [normalizeItem, h, ht, hv, Option.getD_none, pyFloat_zero, if_true]
    exact ⟨_, rfl, rfl⟩

/-- Witness for C2: the value-less price dict of `rawNoValue` yields a
retained zero-priced listing, and the unparseable price of `rawBadPrice`
yields a rejection. -/
theorem C2_price_validation_witness :
    (rawNoValue.price = some ⟨none, some "EUR", false⟩ ∧
      priceTruthy ⟨none, some "EUR", false⟩ = true ∧
      rawBadPrice.price = some ⟨some "abc", some "EUR", false⟩ ∧
      pyFloat "abc" = none) ∧
    ((∃ ci, normalizeItem rawNoValue = some ci ∧ ci.price = 0) ∧
      normalizeItem rawBadPrice = none) :=
  ⟨⟨rfl, rfl, rfl, by decide⟩,
    (C2_price_validation rawNoValue).2.2.2 ⟨none, some "EUR", false⟩ rfl rfl rfl,
    (C2_price_validation rawBadPrice).2.2.1 ⟨some "abc", some "EUR", false⟩ "abc"
      rfl rfl rfl (by decide)⟩

/-- C3 counterexample: when the filtered tier returns a non-2xx error (not
an empty success), the reduced-cap tier is still attempted — and here it
even supplies the listings of the result — although the claim allows a later
tier only after an empty (non-erroneous) predecessor; the unfiltered
same-cap tier is skipped entirely. -/
theorem C3_counterexample :
    oracleT1Err.browse (filteredReq "q" 50) = HttpOutcome.httpErr ∧
    (search_ebay_items oracleT1Err "q" 50).2 =
      [ApiCall.browse (filteredReq "q" 50), ApiCall.browse (reducedReq "q"),
        ApiCall.insightsQ "q"] ∧
    (search_ebay_items oracleT1Err "q" 50).1.current_items ≠ [] := by
  refine ⟨by decide, by decide, by decide⟩

lemma searchCore_nil_facts (o : EbayOracle) (q : String) (calls : List ApiCall) :
    (searchCore o q [] calls).2 =
      calls ++ [ApiCall.browse (reducedReq q), ApiCall.insightsQ q] ∧
    (searchCore o q [] calls).1.current_items =
      sortByTotal (normalizeAll (respItems (o.browse (reducedReq q)))) := by
  simp only [searchCore, List.isEmpty_nil, if_true]
  split
  · next hnil =>
    have h0 : normalizeAll (respItems (o.browse (reducedReq q))) = [] :=
      List.isEmpty_iff.mp hnil
    refine ⟨by simp, ?_⟩
    rw [h0]
    rfl
  · exact ⟨by simp, rfl⟩

/-- C3 (amended): the tiers are attempted in the fixed order
filtered → unfiltered-same-cap → unfiltered-cap-20; the unfiltered tier runs
exactly after a 200 response with zero raw listings; the reduced-cap tier
runs whenever the first phase normalized no listing — including after a
non-2xx error and after raw listings that all failed normalization — and the
result's listings are exactly the (sorted) normalization of the first
response that produced any. -/
theorem C3_tier_order (o : EbayOracle) (q : String) (m : Nat) :
    (o.oauthToken = none → (search_ebay_items o q m).2 = []) ∧
    (o.oauthToken.isSome = true → o.browse (filteredReq q m) = HttpOutcome.raised →
      (search_ebay_items o q m).2 = [ApiCall.browse (filteredReq q m)]) ∧
    (o.oauthToken.isSome = true →
      (∀ items, o.browse (filteredReq q m) = HttpOutcome.ok items →
        normalizeAll items ≠ [] →
        (search_ebay_items o q m).2 =
          [ApiCall.browse (filteredReq q m), ApiCall.insightsQ q] ∧
        (search_ebay_items o q m).1.current_items = sortByTotal (normalizeAll items))) ∧
    (o.oauthToken.isSome = true → o.browse (filteredReq q m) = HttpOutcome.ok [] →
      o.browse (unfilteredReq q m) = HttpOutcome.raised →
      (search_ebay_items o q m).2 =
        [ApiCall.browse (filteredReq q m), ApiCall.browse (unfilteredReq q m)]) ∧
    (o.oauthToken.isSome = true → o.browse (filteredReq q m) = HttpOutcome.ok [] →
      (∀ items2, o.browse (unfilteredReq q m) = HttpOutcome.ok items2 →
        normalizeAll items2 ≠ [] →
        (search_ebay_items o q m).2 =
          [ApiCall.browse (filteredReq q m), ApiCall.browse (unfilteredReq q m),
            ApiCall.insightsQ q] ∧
        (search_ebay_items o q m).1.current_items = sortByTotal (normalizeAll items2))) ∧
    (o.oauthToken.isSome = true → o.browse (filteredReq q m) = HttpOutcome.httpErr →
      (search_ebay_items o q m).2 =
        [ApiCall.browse (filteredReq q m), ApiCall.browse (reducedReq q),
          ApiCall.insightsQ q] ∧
      (search_ebay_items o q m).1.current_items =
        sortByTotal (normalizeAll (respItems (o.browse (reducedReq q))))) ∧
    (o.oauthToken.isSome = true →
      (∀ items, o.browse (filteredReq q m) = HttpOutcome.ok items → items ≠ [] →
        normalizeAll items = [] →
        (search_ebay_items o q m).2 =
          [ApiCall.browse (filteredReq q m), ApiCall.browse (reducedReq q),
            ApiCall.insightsQ q] ∧
        (search_ebay_items o q m).1.current_items =
          sortByTotal (normalizeAll (respItems (o.browse (reducedReq q)))))) ∧
    (o.oauthToken.isSome = true → o.browse (filteredReq q m) = HttpOutcome.ok [] →
      o.browse (unfilteredReq q m) = HttpOutcome.httpErr →
      (search_ebay_items o q m).2 =
        [ApiCall.browse (filteredReq q m), ApiCall.browse (unfilteredReq q m),
          ApiCall.browse (reducedReq q), ApiCall.insightsQ q] ∧
      (search_ebay_items o q m).1.current_items =
        sortByTotal (normalizeAll (respItems (o.browse (reducedReq q))))) ∧
    (o.oauthToken.isSome = true → o.browse (filteredReq q m) = HttpOutcome.ok [] →
      (∀ items2, o.browse (unfilteredReq q m) = HttpOutcome.ok items2 →
        normalizeAll items2 = [] →
        (search_ebay_items o q m).2 =
          [ApiCall.browse (filteredReq q m), ApiCall.browse (unfilteredReq q m),
            ApiCall.browse (reducedReq q), ApiCall.insightsQ q] ∧
        (search_ebay_items o q m).1.current_items =
          sortByTotal (normalizeAll (respItems (o.browse (reducedReq q)))))) := by
  have hsort0 : ∀ l : List CurrentItem, l = [] → sortByTotal l = l := by
    intro l hl
    rw [hl]
    rfl
  refine ⟨?_, ?_, ?_, ?_, ?_, ?_, ?_, ?_, ?_⟩
  · intro h
    simp [search_ebay_items, h]
  · intro h1 h2
    have htok : o.oauthToken.isNone = false := by
      cases ht : o.oauthToken
      · rw [ht] at h1; simp at h1
      · rfl
    simp [search_ebay_items, htok, h2, isRaised]
  · intro h1 items h2 h3
    have htok : o.oauthToken.isNone = false := by
      cases ht : o.oauthToken
      · rw [ht] at h1; simp at h1
      · rfl
    have hitems : items ≠ [] := by
      intro hn
      rw [hn] at h3
      exact h3 normalizeAll_nil
    cases items with
    | nil => exact absurd rfl hitems
    | cons a t =>
      constructor <;>
        simp [search_ebay_items, htok, h2, isRaised, isOkEmpty, searchCore,
          respItems_ok, List.isEmpty_iff, h3]
  · intro h1 h2 h3
    have htok : o.oauthToken.isNone = false := by
      cases ht : o.oauthToken
      · rw [ht] at h1; simp at h1
      · rfl
    simp [search_ebay_items, htok, h2, h3, isRaised, isOkEmpty]
  · intro h1 h2 items2 h3 h4
    have htok : o.oauthToken.isNone = false := by
      cases ht : o.oauthToken
      · rw [ht] at h1; simp at h1
      · rfl
    constructor <;>
      simp [search_ebay_items, htok, h2, h3, isRaised, isOkEmpty, searchCore,
        respItems_ok, List.isEmpty_iff, h4]
  · intro h1 h2
    have htok : o.oauthToken.isNone = false := by
      cases ht : o.oauthToken
      · rw [ht] at h1; simp at h1
      · rfl
    have hmain : search_ebay_items o q m =
        searchCore o q [] [ApiCall.browse (filteredReq q m)] := by
      simp [search_ebay_items, htok, h2, isRaised, isOkEmpty, respItems_httpErr,
        normalizeAll_nil]
    have hc := searchCore_nil_facts o q [ApiCall.browse (filteredReq q m)]
    rw [hmain]
    exact ⟨by rw [hc.1]; rfl, hc.2⟩
  · intro h1 items h2 hitems h3
    have htok : o.oauthToken.isNone = false := by
      cases ht : o.oauthToken
      · rw [ht] at h1; simp at h1
      · rfl
    cases items with
    | nil => exact absurd rfl hitems
    | cons a t =>
      have hmain : search_ebay_items o q m =
          searchCore o q [] [ApiCall.browse (filteredReq q m)] := by
        simp [search_ebay_items, htok, h2, isRaised, isOkEmpty, respItems_ok, h3]
      have hc := searchCore_nil_facts o q [ApiCall.browse (filteredReq q m)]
      rw [hmain]
      exact ⟨by rw [hc.1]; rfl, hc.2⟩
  · intro h1 h2 h3
    have htok : o.oauthToken.isNone = false := by
      cases ht : o.oauthToken
      · rw [ht] at h1; simp at h1
      · rfl
    have hmain : search_ebay_items o q m =
        searchCore o q []
          [ApiCall.browse (filteredReq q m), ApiCall.browse (unfilteredReq q m)] := by
      simp [search_ebay_items, htok, h2, h3, isRaised, isOkEmpty, respItems_httpErr,
        normalizeAll_nil]
    have hc := searchCore_nil_facts o q
      [ApiCall.browse (filteredReq q m), ApiCall.browse (unfilteredReq q m)]
    rw [hmain]
    exact ⟨by rw [hc.1]; rfl, hc.2⟩
  · intro h1 h2 items2 h3 h4
    have htok : o.oauthToken.isNone = false := by
      cases ht : o.oauthToken
      · rw [ht] at h1; simp at h1
      · rfl
    have hmain : search_ebay_items o q m =
        searchCore o q []
          [ApiCall.browse (filteredReq q m), ApiCall.browse (unfilteredReq q m)] := by
      simp [search_ebay_items, htok, h2, h3, isRaised, isOkEmpty, respItems_ok, h4]
    have hc := searchCore_nil_facts o q
      [ApiCall.browse (filteredReq q m), ApiCall.browse (unfilteredReq q m)]
    rw [hmain]
    exact ⟨by rw [hc.1]; rfl, hc.2⟩

/-- Witness for C3: at `oracleT1Err` the filtered tier errors and the
reduced-cap tier supplies the result. -/
theorem C3_tier_order_witness :
    (oracleT1Err.oauthToken.isSome = true ∧
      oracleT1Err.browse (filteredReq "q" 50) = HttpOutcome.httpErr) ∧
    ((search_ebay_items oracleT1Err "q" 50).2 =
      [ApiCall.browse (filteredReq "q" 50), ApiCall.browse (reducedReq "q"),
        ApiCall.insightsQ "q"] ∧
      (search_ebay_items oracleT1Err "q" 50).1.current_items =
        sortByTotal (normalizeAll (respItems (oracleT1Err.browse (reducedReq "q"))))) :=
  ⟨⟨by decide, by decide⟩,
    (C3_tier_order oracleT1Err "q" 50).2.2.2.2.2.1 (by decide) (by decide)⟩

/-- C5 counterexample: a whitespace-only description (`" "`, which strips to
the empty string) does NOT short-circuit — the search client is called with
it — and an empty description produces no row at all (not a NO_RESULTS
result), because `if not query: continue` skips only exactly-empty strings
and skips them entirely. -/
theorem C5_counterexample :
    pyStrip " ".toList = [] ∧
    (processDetected oraclesGood [⟨some " "⟩]).2 = [" "] ∧
    processDetected oraclesGood [⟨some ""⟩] = ([], []) := by
  refine ⟨by decide, by decide, by decide⟩

/-- C5 (amended): a detected item whose `query_text` is missing or exactly
the empty string is skipped entirely — no search call and no result row —
while any non-empty description, including whitespace-only ones, is
searched. -/
theorem C5_empty_description (f : String → EbayOracle) (item : DetectedItem)
    (rest : List DetectedItem) :
    (item.query_text.getD "" = "" →
      processDetected f (item :: rest) = processDetected f rest) ∧
    (∀ s, item.query_text = some s → s ≠ "" →
      (processDetected f (item :: rest)).2 = s :: (processDetected f rest).2) := by
  constructor
  · intro h
    simp [processDetected, h]
  · intro s hs hne
    simp [processDetected, hs, hne]

/-- Witness for C5: the empty description is dropped without a row, and the
whitespace description is searched. -/
theorem C5_empty_description_witness :
    ((⟨some ""⟩ : DetectedItem).query_text.getD "" = "" ∧
      (⟨some " "⟩ : DetectedItem).query_text = some " " ∧ " " ≠ "") ∧
    (processDetected oraclesGood [⟨some ""⟩] = processDetected oraclesGood [] ∧
      (processDetected oraclesGood [⟨some " "⟩]).2 =
        " " :: (processDetected oraclesGood []).2) :=
  ⟨⟨by decide, by decide, by decide⟩,
    (C5_empty_description oraclesGood ⟨some ""⟩ []).1 (by decide),
    (C5_empty_description oraclesGood ⟨some " "⟩ []).2 " " (by decide) (by decide)⟩

/-- C7: a raw listing whose price value parses has
`price_with_shipping = price + shipping`, where the shipping cost is the
parsed cost of the first shipping option and `0` whenever the shipping
option list is empty, the cost dict is missing or falsy, or the cost value
fails to parse. -/
theorem C7_total_price (item : RawItem) (pd : PriceJson) (v : String) (p : ℚ) :
    (item.price = some pd → priceTruthy pd = true → pd.value = some v →
      pyFloat v = some p →
      ∃ ci, normalizeItem item = some ci ∧ ci.price = p ∧
        ci.shipping_cost = extractShipping item ∧
        ci.price_with_shipping = p + extractShipping item) ∧
    (item.shippingOptions = [] → extractShipping item = 0) ∧
    (∀ s1 rest, item.shippingOptions = s1 :: rest → s1.shippingCost = none →
      extractShipping item = 0) ∧
    (∀ s1 rest sc, item.shippingOptions = s1 :: rest → s1.shippingCost = some sc →
      shippingCostTruthy sc = false → extractShipping item = 0) ∧
    (∀ s1 rest sc w, item.shippingOptions = s1 :: rest → s1.shippingCost = some sc →
      shippingCostTruthy sc = true → sc.value = some w → pyFloat w = none →
      extractShipping item = 0) ∧
    (∀ s1 rest sc w qv, item.shippingOptions = s1 :: rest → s1.shippingCost = some sc →
      shippingCostTruthy sc = true → sc.value = some w → pyFloat w = some qv →
      extractShipping item = qv) := by
  refine ⟨?_, ?_, ?_, ?_, ?_, ?_⟩
  · intro h ht hv hp
    simp only [normalizeItem, h, ht, hv, Option.getD_some, hp, if_true]
    exact ⟨_, rfl, rfl, rfl, rfl⟩
  · intro h
    simp [extractShipping, h]
  · intro s1 rest h hsc
    simp [extractShipping, h, hsc]
  · intro s1 rest sc h hsc ht
    simp [extractShipping, h, hsc, ht]
  · intro s1 rest sc w h hsc ht hw hp
    simp [extractShipping, h, hsc, ht, hw, hp]
  · intro s1 rest sc w qv h hsc ht hw hp
    simp [extractShipping, h, hsc, ht, hw, hp]

/-- Witness for C7 at `rawTen` (price value `"10"`, no shipping options). -/
theorem C7_total_price_witness :
    (rawTen.price = some ⟨some "10", some "EUR", false⟩ ∧
      priceTruthy ⟨some "10", some "EUR", false⟩ = true ∧
      pyFloat "10" = some 10 ∧ rawTen.shippingOptions = []) ∧
    ((∃ ci, normalizeItem rawTen = some ci ∧ ci.price = 10 ∧
        ci.shipping_cost = extractShipping rawTen ∧
        ci.price_with_shipping = 10 + extractShipping rawTen) ∧
      extractShipping rawTen = 0) :=
  ⟨⟨rfl, rfl, by decide, rfl⟩,
    (C7_total_price rawTen ⟨some "10", some "EUR", false⟩ "10" 10).1
      rfl rfl rfl (by decide),
    (C7_total_price rawTen ⟨some "10", some "EUR", false⟩ "10" 10).2.1 rfl⟩

lemma tryAlternatives_skip {c orig : String} (h : c = "" ∨ c = orig)
    (f : String → EbayOracle) (rest : List String) :
    tryAlternatives f orig (c :: rest) = tryAlternatives f orig rest := by
  simp [tryAlternatives, h]

lemma tryAlternatives_fail {c orig : String} (h1 : ¬(c = "" ∨ c = orig))
    (f : String → EbayOracle)
    (h2 : (search_ebay_items (f c) c 50).1.current_items = [])
    (rest : List String) :
    tryAlternatives f orig (c :: rest) =
      ((tryAlternatives f orig rest).1, c :: (tryAlternatives f orig rest).2) := by
  simp [tryAlternatives, h1, h2]

lemma tryAlternatives_hit {c orig : String} (h1 : ¬(c = "" ∨ c = orig))
    (f : String → EbayOracle)
    (h2 : (search_ebay_items (f c) c 50).1.current_items ≠ [])
    (rest : List String) :
    tryAlternatives f orig (c :: rest) =
      (RetryOutcome.succeeded c
        ((search_ebay_items (f c) c 50).1.stats.min_current_price.getD 0)
        ((search_ebay_items (f c) c 50).1.stats.median_current_price.getD 0)
        ((((search_ebay_items (f c) c 50).1.current_items.head?).map
          (fun x => x.itemWebUrl)).getD ""), [c]) := by
  simp [tryAlternatives, h1, h2]

/-- C4: in one retry cycle the original failed query is never re-searched;
the cycle returns `exhausted` for an empty candidate list and whenever every
searchable candidate yields no listing; and it stops with `succeeded` at the
first searchable candidate whose search yields listings, searching nothing
after it. -/
theorem C4_retry_cycle :
    (∀ (f : String → EbayOracle) (orig : String) (cs : List String),
      orig ∉ (tryAlternatives f orig cs).2) ∧
    (∀ (f : String → EbayOracle) (orig : String),
      tryAlternatives f orig [] = (RetryOutcome.exhausted, [])) ∧
    (∀ (f : String → EbayOracle) (orig : String) (cs : List String),
      (∀ c ∈ cs, c ≠ "" → c ≠ orig →
        (search_ebay_items (f c) c 50).1.current_items = []) →
      (tryAlternatives f orig cs).1 = RetryOutcome.exhausted) ∧
    (∀ (f : String → EbayOracle) (orig : String) (pre : List String) (c : String)
        (post : List String),
      (∀ x ∈ pre, x = "" ∨ x = orig ∨
        (search_ebay_items (f x) x 50).1.current_items = []) →
      c ≠ "" → c ≠ orig →
      (search_ebay_items (f c) c 50).1.current_items ≠ [] →
      tryAlternatives f orig (pre ++ c :: post) =
        (RetryOutcome.succeeded c
          ((search_ebay_items (f c) c 50).1.stats.min_current_price.getD 0)
          ((search_ebay_items (f c) c 50).1.stats.median_current_price.getD 0)
          ((((search_ebay_items (f c) c 50).1.current_items.head?).map
            (fun x => x.itemWebUrl)).getD ""),
          (pre.filter fun x => !(x == "" || x == orig)) ++ [c])) := by
  refine ⟨?_, ?_, ?_, ?_⟩
  · intro f orig cs
    induction cs with
    | nil => simp [tryAlternatives]
    | cons c rest ih =>
      by_cases hsk : c = "" ∨ c = orig
      · rw [tryAlternatives_skip hsk]
        exact ih
      · by_cases hemp : (search_ebay_items (f c) c 50).1.current_items = []
        · rw [tryAlternatives_fail hsk f hemp]
          have hco : c ≠ orig := fun hco => hsk (Or.inr hco)
          simp only [List.mem_cons]
          rintro (hx | hx)
          · exact hco hx.symm
          · exact ih hx
        · rw [tryAlternatives_hit hsk f hemp]
          have hco : c ≠ orig := fun hco => hsk (Or.inr hco)
          simp [hco, Ne.symm hco]
  · intro f orig
    rfl
  · intro f orig cs hall
    induction cs with
    | nil => rfl
    | cons c rest ih =>
      have hrest : ∀ x ∈ rest, x ≠ "" → x ≠ orig →
          (search_ebay_items (f x) x 50).1.current_items = [] :=
        fun x hx => hall x (List.mem_cons_of_mem c hx)
      by_cases hsk : c = "" ∨ c = orig
      · rw [tryAlternatives_skip hsk]
        exact ih hrest
      · have hc1 : c ≠ "" := fun h => hsk (Or.inl h)
        have hc2 : c ≠ orig := fun h => hsk (Or.inr h)
        have hemp := hall c (List.mem_cons_self c rest) hc1 hc2
        rw [tryAlternatives_fail hsk f hemp]
        exact ih hrest
  · intro f orig pre c post hpre hc1 hc2 hne
    have hsk : ¬(c = "" ∨ c = orig) := by
      rintro (h | h)
      · exact hc1 h
      · exact hc2 h
    induction pre with
    | nil =>
      rw [List.nil_append, tryAlternatives_hit hsk f hne]
      rfl
    | cons x pre ih =>
      have hx := hpre x (List.mem_cons_self x pre)
      have hpre2 : ∀ y ∈ pre, y = "" ∨ y = orig ∨
          (search_ebay_items (f y) y 50).1.current_items = [] :=
        fun y hy => hpre y (List.mem_cons_of_mem x hy)
      rcases hx with hx | hx | hx
      · rw [List.cons_append, tryAlternatives_skip (Or.inl hx), ih hpre2]
        have hxb : (!(x == "" || x == orig)) = false := by
          simp [hx]
        rw [List.filter_cons, hxb]
        simp
      · rw [List.cons_append, tryAlternatives_skip (Or.inr hx), ih hpre2]
        have hxb : (!(x == "" || x == orig)) = false := by
          simp [hx]
        rw [List.filter_cons, hxb]
        simp
      · by_cases hxsk : x = "" ∨ x = orig
        · rw [List.cons_append, tryAlternatives_skip hxsk, ih hpre2]
          have hxb : (!(x == "" || x == orig)) = false := by
            rcases hxsk with h | h <;> simp [h]
          rw [List.filter_cons, hxb]
          simp
        · rw [List.cons_append, tryAlternatives_fail hxsk f hx, ih hpre2]
          have hx1 : x ≠ "" := fun h => hxsk (Or.inl h)
          have hx2 : x ≠ orig := fun h => hxsk (Or.inr h)
          have hxb : (!(x == "" || x == orig)) = true := by
            simp [hx1, hx2]
          rw [List.filter_cons, hxb]
          simp

/-- Witness for C4: with candidates `["", "orig", "bad", "good", "later"]`
and original query `"orig"`, the empty and original candidates are skipped,
`"bad"` fails, and the cycle stops successfully at `"good"` without
searching `"later"`. -/
theorem C4_retry_cycle_witness :
    ((∀ x ∈ ["", "orig", "bad"], x = "" ∨ x = "orig" ∨
        (search_ebay_items (oraclesGood x) x 50).1.current_items = []) ∧
      "good" ≠ "" ∧ "good" ≠ "orig" ∧
      (search_ebay_items (oraclesGood "good") "good" 50).1.current_items ≠ []) ∧
    tryAlternatives oraclesGood "orig" (["", "orig", "bad"] ++ "good" :: ["later"]) =
      (RetryOutcome.succeeded "good"
        ((search_ebay_items (oraclesGood "good") "good" 50).1.stats.min_current_price.getD 0)
        ((search_ebay_items (oraclesGood "good") "good" 50).1.stats.median_current_price.getD 0)
        ((((search_ebay_items (oraclesGood "good") "good" 50).1.current_items.head?).map
          (fun x => x.itemWebUrl)).getD ""),
        (["", "orig", "bad"].filter fun x => !(x == "" || x == "orig")) ++ ["good"]) :=
  ⟨⟨by decide, by decide, by decide, by decide⟩,
    C4_retry_cycle.2.2.2 oraclesGood "orig" ["", "orig", "bad"] "good" ["later"]
      (by decide) (by decide) (by decide) (by decide)⟩

/-- Witness for C6 at `oracleOne`, whose filtered tier finds one listing. -/
theorem C6_statistics_bounds_witness :
    (search_ebay_items oracleOne "q" 50).1.current_items ≠ [] ∧
    (∃ mn md mx,
      (search_ebay_items oracleOne "q" 50).1.stats.min_current_price = some mn ∧
      (search_ebay_items oracleOne "q" 50).1.stats.median_current_price = some md ∧
      (search_ebay_items oracleOne "q" 50).1.stats.max_current_price = some mx ∧
      mn ≤ md ∧ md ≤ mx ∧
      (search_ebay_items oracleOne "q" 50).1.stats.count_current =
        some (search_ebay_items oracleOne "q" 50).1.current_items.length ∧
      md = pyMedian ((search_ebay_items oracleOne "q" 50).1.current_items.map
        (fun x => x.price_with_shipping))) :=
  ⟨by decide, (C6_statistics_bounds oracleOne "q" 50).1 (by decide)⟩

/-- Witness for C8 at `oracleOne`: the one-listing result is PRICED. -/
theorem C8_result_invariant_witness :
    statusOf (search_ebay_items oracleOne "q" 50).1 = QueryStatus.PRICED :=
  (C8_result_invariant oracleOne "q" 50).2.1.mpr (by decide)

/-- Witness for C10 at `oracleOne`: the insights request is issued. -/
theorem C10_sold_items_never_populated_witness :
    (oracleOne.oauthToken.isSome = true ∧
      isRaised (oracleOne.browse (filteredReq "q" 50)) = false ∧
      (isOkEmpty (oracleOne.browse (filteredReq "q" 50)) = true →
        isRaised (oracleOne.browse (unfilteredReq "q" 50)) = false)) ∧
    ApiCall.insightsQ "q" ∈ (search_ebay_items oracleOne "q" 50).2 :=
  ⟨⟨by decide, by decide, by decide⟩,
    (C10_sold_items_never_populated oracleOne "q" 50).2.2.2.2
      (by decide) (by decide) (by decide)⟩
